import Mathlib

/-!
Shallow embedding of the gesture-driven overlay transform engine of a
mobile tracing app.  The source is a single script holding an overlay
transform record, touch gesture handlers (single-finger pan, two-finger
pinch, double-tap reset), zoom button handlers, an explicit reset, resize
and orientation-change handling, filter state, and image ingestion with
downscaling of oversized rasters.

Numbers are modelled as rationals.  The platform Euclidean distance
function Math.hypot is a parameter of the gesture handlers: no property
proved below depends on its values, only on how the handlers combine the
value with the rest of the state, so every theorem quantifies over it.
The JavaScript expression Math.hypot(dx, dy) || 1 is modelled by jsOrOne
applied to the parameter, since for finite inputs the only falsy value
Math.hypot can return is 0.
-/

structure Touch where
  clientX : ℚ
  clientY : ℚ
deriving DecidableEq, Repr

structure OverlayState where
  scale : ℚ
  x : ℚ
  y : ℚ
  rotation : ℚ
  locked : Bool
deriving DecidableEq, Repr

structure FilterState where
  brightness : ℚ
  contrast : ℚ
  opacity : ℚ
deriving DecidableEq, Repr

structure FxState where
  grayscale : Bool
  invert : Bool
deriving DecidableEq, Repr

structure AppFlags where
  hasImage : Bool
  cameraActive : Bool
  uiHidden : Bool
deriving DecidableEq, Repr

/-- The mutable module-level state of the script that the claims are
about: the overlay transform, filter and fx records, the viewport metrics
and the gesture bookkeeping variables. -/
structure GState where
  appState : AppFlags
  overlayState : OverlayState
  filterState : FilterState
  fxState : FxState
  viewportWidth : ℚ
  viewportHeight : ℚ
  overlayReady : Bool
  lastTapTime : ℚ
  lastTapX : ℚ
  lastTapY : ℚ
  panStartX : ℚ
  panStartY : ℚ
  overlayStartX : ℚ
  overlayStartY : ℚ
  pinchStartDistance : ℚ
  pinchStartScale : ℚ
  pinchStartCenterX : ℚ
  pinchStartCenterY : ℚ
  overlayStartXForPinch : ℚ
  overlayStartYForPinch : ℚ
deriving DecidableEq, Repr

/-- Model of the JavaScript idiom q || 1 on a number produced by
Math.hypot: the only falsy such value for finite inputs is 0. -/
def jsOrOne (q : ℚ) : ℚ := if q = 0 then 1 else q

/-- resetOverlayTransform from the source: sets scale to 1 and centers
the overlay at half of the current viewport size. -/
def resetOverlayTransform (viewportWidth viewportHeight : ℚ) (o : OverlayState) : OverlayState :=
  { o with scale := 1, x := viewportWidth / 2, y := viewportHeight / 2 }

/-- resetOverlayTransform acting on the whole module state, reading the
viewport size variables as the source does. -/
def GState.resetOverlay (s : GState) : GState :=
  { s with overlayState := resetOverlayTransform s.viewportWidth s.viewportHeight s.overlayState }

/-- resetFilters from the source: restores the default filter and fx
values.  The slider DOM writes are outside the model. -/
def resetFilters (s : GState) : GState :=
  { s with filterState := { brightness := 1, contrast := 1, opacity := 7/10 },
           fxState := { grayscale := false, invert := false } }

/-- handleTouchStart from the source.  The hyp parameter stands for
Math.hypot; now stands for Date.now().  Message display and vibration are
outside the model. -/
def handleTouchStart (hyp : ℚ → ℚ → ℚ) (now : ℚ) (touches : List Touch) (s : GState) : GState :=
  if s.overlayReady = false then s
  else if s.appState.uiHidden then
    { s with appState := { s.appState with uiHidden := false } }
  else
    match touches with
    | [t] =>
      let s1 :=
        if now - s.lastTapTime < 300 ∧
            (t.clientX - s.lastTapX) * (t.clientX - s.lastTapX) +
              (t.clientY - s.lastTapY) * (t.clientY - s.lastTapY) < 30 * 30 then
          { s.resetOverlay with lastTapTime := 0 }
        else
          { s with lastTapTime := now, lastTapX := t.clientX, lastTapY := t.clientY }
      if s1.overlayState.locked then s1
      else
        { s1 with panStartX := t.clientX, panStartY := t.clientY,
                  overlayStartX := s1.overlayState.x,
                  overlayStartY := s1.overlayState.y }
    | [t0, t1] =>
      if s.overlayState.locked then s
      else
        { s with
          pinchStartDistance := jsOrOne (hyp (t1.clientX - t0.clientX) (t1.clientY - t0.clientY)),
          pinchStartScale := s.overlayState.scale,
          pinchStartCenterX := (t0.clientX + t1.clientX) / 2,
          pinchStartCenterY := (t0.clientY + t1.clientY) / 2,
          overlayStartXForPinch := s.overlayState.x,
          overlayStartYForPinch := s.overlayState.y }
    | _ => s

/-- handleTouchMove from the source. -/
def handleTouchMove (hyp : ℚ → ℚ → ℚ) (touches : List Touch) (s : GState) : GState :=
  if s.overlayReady = false ∨ s.overlayState.locked = true then s
  else
    match touches with
    | [t] =>
      { s with overlayState := { s.overlayState with
          x := s.overlayStartX + (t.clientX - s.panStartX),
          y := s.overlayStartY + (t.clientY - s.panStartY) } }
    | [t0, t1] =>
      let dist := jsOrOne (hyp (t1.clientX - t0.clientX) (t1.clientY - t0.clientY))
      let newScale := max (1/10) (min 8 (dist / s.pinchStartDistance * s.pinchStartScale))
      let centerX := (t0.clientX + t1.clientX) / 2
      let centerY := (t0.clientY + t1.clientY) / 2
      let worldX := (centerX - s.overlayStartXForPinch) / s.pinchStartScale
      let worldY := (centerY - s.overlayStartYForPinch) / s.pinchStartScale
      { s with overlayState := { s.overlayState with
          scale := newScale,
          x := centerX - worldX * newScale,
          y := centerY - worldY * newScale } }
    | _ => s

/-- handleTouchEnd from the source: clears the pinch distance once no
finger remains. -/
def handleTouchEnd (touches : List Touch) (s : GState) : GState :=
  if touches.length = 0 then { s with pinchStartDistance := 0 } else s

/-- The zoom-in button click handler from initControls. -/
def zoomInClick (s : GState) : GState :=
  if s.overlayReady = false ∨ s.overlayState.locked = true then s
  else
    { s with overlayState := { s.overlayState with
        scale := min 8 (s.overlayState.scale * (11/10)) } }

/-- The zoom-out button click handler from initControls. -/
def zoomOutClick (s : GState) : GState :=
  if s.overlayReady = false ∨ s.overlayState.locked = true then s
  else
    { s with overlayState := { s.overlayState with
        scale := max (1/10) (s.overlayState.scale * (1 / (11/10))) } }

/-- The reset button click handler from initControls. -/
def resetClick (s : GState) : GState := s.resetOverlay

/-- toggleLock from the source, wired to the lock button: flips the
locked flag; the button label, the message and the vibration are outside
the model. -/
def toggleLock (s : GState) : GState :=
  { s with overlayState := { s.overlayState with locked := !s.overlayState.locked } }

/-- The resize and orientation-change listeners from initControls: both
return early when the camera is inactive, otherwise resize the canvas to
the new window size and re-center the overlay.  newWidth and newHeight
are the new window dimensions read by updateViewportSize; the canvas
backing store and device pixel mapping are outside the model. -/
def handleResize (newWidth newHeight : ℚ) (s : GState) : GState :=
  if s.appState.cameraActive = false then s
  else ({ s with viewportWidth := newWidth, viewportHeight := newHeight }).resetOverlay

structure ImgDims where
  naturalWidth : ℕ
  naturalHeight : ℕ
deriving DecidableEq, Repr

/-- Math.round on a nonnegative rational: round half toward positive
infinity, which on nonnegative inputs is the floor of q + 1/2. -/
def jsRound (q : ℚ) : ℤ := Int.floor (q + 1/2)

/-- createDownscaledImageIfNeeded from the source, on the dimension part
of the image: rasters at most 4096 on the longest edge pass through,
larger ones are scaled by 4096 over the longest edge with each target
edge rounded. -/
def createDownscaledImageIfNeeded (d : ImgDims) : ImgDims :=
  let maxDim : ℕ := 4096
  let largest := max d.naturalWidth d.naturalHeight
  if largest ≤ maxDim then d
  else
    { naturalWidth := (jsRound ((d.naturalWidth : ℚ) * ((maxDim : ℚ) / (largest : ℚ)))).toNat,
      naturalHeight := (jsRound ((d.naturalHeight : ℚ) * ((maxDim : ℚ) / (largest : ℚ)))).toNat }

/-- The dimension contract of handleImageFile: the decoded image is
downscaled exactly when its longest edge exceeds 4096, otherwise exposed
unchanged. -/
def loadedImageDims (d : ImgDims) : ImgDims :=
  if 4096 < max d.naturalWidth d.naturalHeight then createDownscaledImageIfNeeded d else d

/-- The state effect of the image-load completion path of
handleImageFile: marks the overlay ready, records the image flag,
resizes the canvas to the window size, re-centers the overlay and resets
the filters, in source order. -/
def imageLoadComplete (newWidth newHeight : ℚ) (s : GState) : GState :=
  resetFilters (GState.resetOverlay
    { s with overlayReady := true,
             appState := { s.appState with hasImage := true },
             viewportWidth := newWidth, viewportHeight := newHeight })

/-- A raw touch event as delivered to the three canvas listeners. -/
inductive GEvent where
  | touchStart (now : ℚ) (touches : List Touch)
  | touchMove (touches : List Touch)
  | touchEnd (touches : List Touch)
deriving DecidableEq, Repr

def stepGesture (hyp : ℚ → ℚ → ℚ) (s : GState) (e : GEvent) : GState :=
  match e with
  | .touchStart now touches => handleTouchStart hyp now touches s
  | .touchMove touches => handleTouchMove hyp touches s
  | .touchEnd touches => handleTouchEnd touches s

def runGestures (hyp : ℚ → ℚ → ℚ) (s : GState) (es : List GEvent) : GState :=
  es.foldl (stepGesture hyp) s

/-- The operations of the claims about the overlay transform: zoom
buttons, explicit reset, and raw touch events. -/
inductive OverlayOp where
  | zoomIn
  | zoomOut
  | resetBtn
  | gesture (e : GEvent)
deriving DecidableEq, Repr

def stepOp (hyp : ℚ → ℚ → ℚ) (s : GState) (op : OverlayOp) : GState :=
  match op with
  | .zoomIn => zoomInClick s
  | .zoomOut => zoomOutClick s
  | .resetBtn => resetClick s
  | .gesture e => stepGesture hyp s e

def runOps (hyp : ℚ → ℚ → ℚ) (s : GState) (ops : List OverlayOp) : GState :=
  ops.foldl (stepOp hyp) s

/-- Decides whether a touch-start event takes the double-tap reset branch
of handleTouchStart in state s. -/
def doubleTapFires (now : ℚ) (touches : List Touch) (s : GState) : Bool :=
  s.overlayReady && !s.appState.uiHidden &&
    match touches with
    | [t] =>
        decide (now - s.lastTapTime < 300 ∧
          (t.clientX - s.lastTapX) * (t.clientX - s.lastTapX) +
            (t.clientY - s.lastTapY) * (t.clientY - s.lastTapY) < 30 * 30)
    | _ => false

/-- Decides whether an event is a touch-start that takes the double-tap
reset branch in state s. -/
def eventFires (s : GState) : GEvent → Bool
  | .touchStart now touches => doubleTapFires now touches s
  | _ => false

/-- Decides whether some touch-start of the event list takes the
double-tap reset branch when the list is run from state s. -/
def traceFiresDoubleTap (hyp : ℚ → ℚ → ℚ) (s : GState) : List GEvent → Bool
  | [] => false
  | e :: es => eventFires s e || traceFiresDoubleTap hyp (stepGesture hyp s e) es

/-- A concrete stand-in for Math.hypot used by the closed witness and
counterexample statements below: it returns the exact Euclidean distance
on axis-aligned inputs, which are the only inputs those statements use.
Every gesture theorem quantifies over the distance function, so any
instance is admissible. -/
def axisDist (dx dy : ℚ) : ℚ := if dx = 0 then |dy| else if dy = 0 then |dx| else 0

/-- A baseline module state used to build the concrete states of the
closed statements: image loaded, camera active, UI visible, unlocked
overlay centered on a 400 by 800 viewport. -/
def baseState : GState :=
  { appState := { hasImage := true, cameraActive := true, uiHidden := false },
    overlayState := { scale := 1, x := 200, y := 400, rotation := 0, locked := false },
    filterState := { brightness := 1, contrast := 1, opacity := 7/10 },
    fxState := { grayscale := false, invert := false },
    viewportWidth := 400,
    viewportHeight := 800,
    overlayReady := true,
    lastTapTime := 0,
    lastTapX := 0,
    lastTapY := 0,
    panStartX := 0,
    panStartY := 0,
    overlayStartX := 0,
    overlayStartY := 0,
    pinchStartDistance := 1,
    pinchStartScale := 1,
    pinchStartCenterX := 0,
    pinchStartCenterY := 0,
    overlayStartXForPinch := 0,
    overlayStartYForPinch := 0 }

/-- A locked variant of the baseline state whose overlay is away from the
viewport center. -/
def lockedState : GState :=
  { baseState with overlayState := { baseState.overlayState with locked := true, x := 50 } }

/-- A baseline state in the middle of a pinch whose recorded start
midpoint is 10 on the horizontal axis, with the overlay origin at 0. -/
def pinchState : GState :=
  { baseState with pinchStartDistance := 10, pinchStartScale := 1,
                   pinchStartCenterX := 10, pinchStartCenterY := 0,
                   overlayStartXForPinch := 0, overlayStartYForPinch := 0 }

/-- A baseline state with the camera inactive and the overlay away from
the center of the incoming viewport. -/
def inactiveState : GState :=
  { baseState with appState := { baseState.appState with cameraActive := false },
                   overlayState := { baseState.overlayState with x := 0 } }

/-- A baseline state with a non-default opacity. -/
def tintedState : GState :=
  { baseState with filterState := { brightness := 1, contrast := 1, opacity := 1/2 } }

theorem jsOrOne_ne_zero (q : ℚ) : jsOrOne q ≠ 0 := by
  unfold jsOrOne
  split_ifs with h
  · norm_num
  · exact h

theorem jsOrOne_of_eq_zero (q : ℚ) (h : q = 0) : jsOrOne q = 1 := by
  simp [jsOrOne, h]

/-- Claim C8: resetOverlayTransform sets scale to 1 and the position to
the viewport center, and leaves rotation and locked untouched, for every
starting overlay state. -/
theorem reset_transform_contract (vw vh : ℚ) (o : OverlayState) :
    (resetOverlayTransform vw vh o).scale = 1 ∧
    (resetOverlayTransform vw vh o).x = vw / 2 ∧
    (resetOverlayTransform vw vh o).y = vh / 2 ∧
    (resetOverlayTransform vw vh o).rotation = o.rotation ∧
    (resetOverlayTransform vw vh o).locked = o.locked := by
  refine ⟨rfl, rfl, rfl, rfl, rfl⟩

/-- Claim C5, amended: a resize or orientation-change event received
while the camera is active updates the viewport metrics and re-centers
the overlay at the center of the new viewport.  When the camera is
inactive the handler returns early and re-centers nothing, which is the
counterexample to the unconditional claim. -/
theorem resize_recenters_camera_active (s : GState) (newW newH : ℚ)
    (hc : s.appState.cameraActive = true) :
    (handleResize newW newH s).overlayState.x = newW / 2 ∧
    (handleResize newW newH s).overlayState.y = newH / 2 ∧
    (handleResize newW newH s).viewportWidth = newW ∧
    (handleResize newW newH s).viewportHeight = newH := by
  simp [handleResize, hc, GState.resetOverlay, resetOverlayTransform]

/-- Witness for C5: the amended statement at the baseline state and a
400 by 800 viewport. -/
theorem resize_recenters_camera_active_witness :
    (handleResize 414 896 baseState).overlayState.x = 414 / 2 ∧
    (handleResize 414 896 baseState).overlayState.y = 896 / 2 ∧
    (handleResize 414 896 baseState).viewportWidth = 414 ∧
    (handleResize 414 896 baseState).viewportHeight = 896 :=
  resize_recenters_camera_active baseState 414 896 rfl

/-- Counterexample for C5 as frozen: with the camera inactive the resize
listener returns early, so the overlay is not re-centered on the new
viewport. -/
theorem resize_recenters_counterexample :
    ¬ ((handleResize 400 800 inactiveState).overlayState.x = 400 / 2) := by
  norm_num [handleResize, inactiveState, baseState]

/-- Claim C10: in an unlocked ready state whose scale satisfies the
documented invariant, the zoom-in click sets the scale to
min 8 (scale times 11 over 10) and never decreases it, the zoom-out
click sets it to max of 1 over 10 and scale divided by 11 over 10 and
never increases it, and neither click changes any other field. -/
theorem zoom_button_contract (s : GState)
    (hr : s.overlayReady = true) (hl : s.overlayState.locked = false)
    (hlo : 1/10 ≤ s.overlayState.scale) (hhi : s.overlayState.scale ≤ 8) :
    zoomInClick s =
      { s with overlayState := { s.overlayState with
          scale := min 8 (s.overlayState.scale * (11/10)) } } ∧
    s.overlayState.scale ≤ (zoomInClick s).overlayState.scale ∧
    zoomOutClick s =
      { s with overlayState := { s.overlayState with
          scale := max (1/10) (s.overlayState.scale * (1 / (11/10))) } } ∧
    (zoomOutClick s).overlayState.scale ≤ s.overlayState.scale := by
  have hguard : ¬ (s.overlayReady = false ∨ s.overlayState.locked = true) := by
    simp [hr, hl]
  have hin : zoomInClick s =
      { s with overlayState := { s.overlayState with
          scale := min 8 (s.overlayState.scale * (11/10)) } } := by
    unfold zoomInClick
    rw [if_neg hguard]
  have hout : zoomOutClick s =
      { s with overlayState := { s.overlayState with
          scale := max (1/10) (s.overlayState.scale * (1 / (11/10))) } } := by
    unfold zoomOutClick
    rw [if_neg hguard]
  refine ⟨hin, ?_, hout, ?_⟩
  · rw [hin]
    simp only
    exact le_min hhi (by linarith)
  · rw [hout]
    simp only
    refine max_le hlo (by linarith)

/-- Witness for C10 at the baseline state. -/
theorem zoom_button_contract_witness :
    zoomInClick baseState =
      { baseState with overlayState := { baseState.overlayState with
          scale := min 8 (baseState.overlayState.scale * (11/10)) } } ∧
    baseState.overlayState.scale ≤ (zoomInClick baseState).overlayState.scale ∧
    zoomOutClick baseState =
      { baseState with overlayState := { baseState.overlayState with
          scale := max (1/10) (baseState.overlayState.scale * (1 / (11/10))) } } ∧
    (zoomOutClick baseState).overlayState.scale ≤ baseState.overlayState.scale :=
  zoom_button_contract baseState rfl rfl (by norm_num [baseState]) (by norm_num [baseState])

theorem handleTouchMove_pinch (hyp : ℚ → ℚ → ℚ) (s : GState) (t0 t1 : Touch)
    (hr : s.overlayReady = true) (hl : s.overlayState.locked = false) :
    handleTouchMove hyp [t0, t1] s =
      { s with overlayState := { s.overlayState with
          scale := max (1/10) (min 8
            (jsOrOne (hyp (t1.clientX - t0.clientX) (t1.clientY - t0.clientY)) /
              s.pinchStartDistance * s.pinchStartScale)),
          x := (t0.clientX + t1.clientX) / 2 -
            ((t0.clientX + t1.clientX) / 2 - s.overlayStartXForPinch) / s.pinchStartScale *
              max (1/10) (min 8
                (jsOrOne (hyp (t1.clientX - t0.clientX) (t1.clientY - t0.clientY)) /
                  s.pinchStartDistance * s.pinchStartScale)),
          y := (t0.clientY + t1.clientY) / 2 -
            ((t0.clientY + t1.clientY) / 2 - s.overlayStartYForPinch) / s.pinchStartScale *
              max (1/10) (min 8
                (jsOrOne (hyp (t1.clientX - t0.clientX) (t1.clientY - t0.clientY)) /
                  s.pinchStartDistance * s.pinchStartScale)) } } := by
  unfold handleTouchMove
  rw [if_neg (by simp [hr, hl])]

theorem anchor_ratio (cx x0 s0 ns : ℚ) (hns : ns ≠ 0) :
    (cx - (cx - (cx - x0) / s0 * ns)) / ns = (cx - x0) / s0 := by
  have h : cx - (cx - (cx - x0) / s0 * ns) = (cx - x0) / s0 * ns := by ring
  rw [h, mul_div_cancel_right₀ _ hns]

/-- Claim C2, amended: during a two-finger pinch move the world anchor is
computed from the CURRENT midpoint with the original scale as divisor,
worldX equal to currentMidpoint.x minus origin.x over s0, and the new
position is x equal to currentMidpoint.x minus worldX times newScale;
consequently the current midpoint cx satisfies the relation
(cx - x1) / newScale = (cx - x0) / s0, and in the special case where the
midpoint has not moved from the pinch-start midpoint the relation of the
frozen claim holds at that midpoint.  The recorded pinch-start midpoint
is never read by the move handler. -/
theorem pinch_anchor_current_midpoint (hyp : ℚ → ℚ → ℚ) (s : GState) (t0 t1 : Touch)
    (hr : s.overlayReady = true) (hl : s.overlayState.locked = false)
    (_hs0 : s.pinchStartScale ≠ 0) :
    ((t0.clientX + t1.clientX) / 2 - (handleTouchMove hyp [t0, t1] s).overlayState.x) /
        (handleTouchMove hyp [t0, t1] s).overlayState.scale =
      ((t0.clientX + t1.clientX) / 2 - s.overlayStartXForPinch) / s.pinchStartScale ∧
    ((t0.clientY + t1.clientY) / 2 - (handleTouchMove hyp [t0, t1] s).overlayState.y) /
        (handleTouchMove hyp [t0, t1] s).overlayState.scale =
      ((t0.clientY + t1.clientY) / 2 - s.overlayStartYForPinch) / s.pinchStartScale ∧
    ((t0.clientX + t1.clientX) / 2 = s.pinchStartCenterX →
      (s.pinchStartCenterX - (handleTouchMove hyp [t0, t1] s).overlayState.x) /
          (handleTouchMove hyp [t0, t1] s).overlayState.scale =
        (s.pinchStartCenterX - s.overlayStartXForPinch) / s.pinchStartScale) := by
  rw [handleTouchMove_pinch hyp s t0 t1 hr hl]
  simp only
  have hns : (1 : ℚ) / 10 ≤ max (1/10) (min 8
      (jsOrOne (hyp (t1.clientX - t0.clientX) (t1.clientY - t0.clientY)) /
        s.pinchStartDistance * s.pinchStartScale)) := le_max_left _ _
  have hnsne : max (1/10) (min 8
      (jsOrOne (hyp (t1.clientX - t0.clientX) (t1.clientY - t0.clientY)) /
        s.pinchStartDistance * s.pinchStartScale)) ≠ 0 := by
    intro h0
    rw [h0] at hns
    norm_num at hns
  refine ⟨anchor_ratio _ _ _ _ hnsne, anchor_ratio _ _ _ _ hnsne, ?_⟩
  intro hmid
  rw [← hmid]
  exact anchor_ratio _ _ _ _ hnsne

/-- Witness for C2: the amended statement at a concrete pinch move whose
fingers sit on the horizontal axis. -/
theorem pinch_anchor_current_midpoint_witness :
    ((Touch.clientX ⟨10, 0⟩ + Touch.clientX ⟨30, 0⟩) / 2 -
        (handleTouchMove axisDist [⟨10, 0⟩, ⟨30, 0⟩] pinchState).overlayState.x) /
        (handleTouchMove axisDist [⟨10, 0⟩, ⟨30, 0⟩] pinchState).overlayState.scale =
      ((Touch.clientX ⟨10, 0⟩ + Touch.clientX ⟨30, 0⟩) / 2 -
        pinchState.overlayStartXForPinch) / pinchState.pinchStartScale ∧
    ((Touch.clientY ⟨10, 0⟩ + Touch.clientY ⟨30, 0⟩) / 2 -
        (handleTouchMove axisDist [⟨10, 0⟩, ⟨30, 0⟩] pinchState).overlayState.y) /
        (handleTouchMove axisDist [⟨10, 0⟩, ⟨30, 0⟩] pinchState).overlayState.scale =
      ((Touch.clientY ⟨10, 0⟩ + Touch.clientY ⟨30, 0⟩) / 2 -
        pinchState.overlayStartYForPinch) / pinchState.pinchStartScale ∧
    ((Touch.clientX ⟨10, 0⟩ + Touch.clientX ⟨30, 0⟩) / 2 = pinchState.pinchStartCenterX →
      (pinchState.pinchStartCenterX -
          (handleTouchMove axisDist [⟨10, 0⟩, ⟨30, 0⟩] pinchState).overlayState.x) /
          (handleTouchMove axisDist [⟨10, 0⟩, ⟨30, 0⟩] pinchState).overlayState.scale =
        (pinchState.pinchStartCenterX - pinchState.overlayStartXForPinch) /
          pinchState.pinchStartScale) :=
  pinch_anchor_current_midpoint axisDist pinchState ⟨10, 0⟩ ⟨30, 0⟩ rfl rfl
    (by norm_num [pinchState, baseState])

/-- Counterexample for C2 as frozen: the move handler reads the current
midpoint, not the recorded pinch-start midpoint, so when the midpoint has
moved, the frozen relation at the original midpoint mx fails, and the
position differs from the one the frozen anchor formula predicts. -/
theorem pinch_anchor_counterexample :
    (handleTouchMove axisDist [⟨10, 0⟩, ⟨30, 0⟩] pinchState).overlayState.scale = 2 ∧
    (handleTouchMove axisDist [⟨10, 0⟩, ⟨30, 0⟩] pinchState).overlayState.x = -20 ∧
    ¬ ((pinchState.pinchStartCenterX -
          (handleTouchMove axisDist [⟨10, 0⟩, ⟨30, 0⟩] pinchState).overlayState.x) /
          (handleTouchMove axisDist [⟨10, 0⟩, ⟨30, 0⟩] pinchState).overlayState.scale =
        (pinchState.pinchStartCenterX - pinchState.overlayStartXForPinch) /
          pinchState.pinchStartScale) ∧
    ¬ ((handleTouchMove axisDist [⟨10, 0⟩, ⟨30, 0⟩] pinchState).overlayState.x =
        (10 + 30) / 2 -
          ((pinchState.pinchStartCenterX - pinchState.overlayStartXForPinch) /
            pinchState.pinchStartScale) * 2) := by
  norm_num [handleTouchMove, pinchState, baseState, axisDist, jsOrOne]

theorem handleTouchStart_pinch_record (hyp : ℚ → ℚ → ℚ) (now : ℚ) (t0 t1 : Touch) (s : GState)
    (hr : s.overlayReady = true) (hui : s.appState.uiHidden = false)
    (hl : s.overlayState.locked = false) :
    handleTouchStart hyp now [t0, t1] s =
      { s with
        pinchStartDistance := jsOrOne (hyp (t1.clientX - t0.clientX) (t1.clientY - t0.clientY)),
        pinchStartScale := s.overlayState.scale,
        pinchStartCenterX := (t0.clientX + t1.clientX) / 2,
        pinchStartCenterY := (t0.clientY + t1.clientY) / 2,
        overlayStartXForPinch := s.overlayState.x,
        overlayStartYForPinch := s.overlayState.y } := by
  unfold handleTouchStart
  rw [if_neg (by simp [hr]), if_neg (by simp [hui])]
  simp only
  rw [if_neg (by simp [hl])]

/-- Claim C7: both in the pinch-start recording and in the pinch-move
computation, a platform distance of exactly zero is replaced by 1, so the
recorded pinch-start distance is never zero, the effective move distance
is never zero, and the new scale is computed as the clamp of the quotient
of these nonzero quantities times the start scale for every pair of touch
points. -/
theorem pinch_distance_guard (hyp : ℚ → ℚ → ℚ) (now : ℚ) (s : GState) (t0 t1 u0 u1 : Touch)
    (hr : s.overlayReady = true) (hui : s.appState.uiHidden = false)
    (hl : s.overlayState.locked = false) :
    (handleTouchStart hyp now [t0, t1] s).pinchStartDistance =
      jsOrOne (hyp (t1.clientX - t0.clientX) (t1.clientY - t0.clientY)) ∧
    (handleTouchStart hyp now [t0, t1] s).pinchStartDistance ≠ 0 ∧
    (hyp (t1.clientX - t0.clientX) (t1.clientY - t0.clientY) = 0 →
      (handleTouchStart hyp now [t0, t1] s).pinchStartDistance = 1) ∧
    jsOrOne (hyp (u1.clientX - u0.clientX) (u1.clientY - u0.clientY)) ≠ 0 ∧
    (hyp (u1.clientX - u0.clientX) (u1.clientY - u0.clientY) = 0 →
      jsOrOne (hyp (u1.clientX - u0.clientX) (u1.clientY - u0.clientY)) = 1) ∧
    (handleTouchMove hyp [u0, u1] (handleTouchStart hyp now [t0, t1] s)).overlayState.scale =
      max (1/10) (min 8
        (jsOrOne (hyp (u1.clientX - u0.clientX) (u1.clientY - u0.clientY)) /
          (handleTouchStart hyp now [t0, t1] s).pinchStartDistance *
          (handleTouchStart hyp now [t0, t1] s).pinchStartScale)) := by
  have hrec := handleTouchStart_pinch_record hyp now t0 t1 s hr hui hl
  have hr2 : (handleTouchStart hyp now [t0, t1] s).overlayReady = true := by
    rw [hrec]
    exact hr
  have hl2 : (handleTouchStart hyp now [t0, t1] s).overlayState.locked = false := by
    rw [hrec]
    exact hl
  have hmove := handleTouchMove_pinch hyp (handleTouchStart hyp now [t0, t1] s) u0 u1 hr2 hl2
  refine ⟨by rw [hrec], ?_, ?_, jsOrOne_ne_zero _, fun h0 => jsOrOne_of_eq_zero _ h0, ?_⟩
  · rw [hrec]
    exact jsOrOne_ne_zero _
  · intro h0
    rw [hrec]
    simp only
    exact jsOrOne_of_eq_zero _ h0
  · rw [hmove]

/-- Witness for C7 on concrete axis-aligned touch pairs, one of which has
coincident touch points so the platform distance is zero. -/
theorem pinch_distance_guard_witness :
    (handleTouchStart axisDist 2000 [⟨0, 0⟩, ⟨3, 0⟩] baseState).pinchStartDistance =
      jsOrOne (axisDist (Touch.clientX ⟨3, 0⟩ - Touch.clientX ⟨0, 0⟩)
        (Touch.clientY ⟨3, 0⟩ - Touch.clientY ⟨0, 0⟩)) ∧
    (handleTouchStart axisDist 2000 [⟨0, 0⟩, ⟨3, 0⟩] baseState).pinchStartDistance ≠ 0 ∧
    (axisDist (Touch.clientX ⟨3, 0⟩ - Touch.clientX ⟨0, 0⟩)
        (Touch.clientY ⟨3, 0⟩ - Touch.clientY ⟨0, 0⟩) = 0 →
      (handleTouchStart axisDist 2000 [⟨0, 0⟩, ⟨3, 0⟩] baseState).pinchStartDistance = 1) ∧
    jsOrOne (axisDist (Touch.clientX ⟨5, 5⟩ - Touch.clientX ⟨5, 5⟩)
      (Touch.clientY ⟨5, 5⟩ - Touch.clientY ⟨5, 5⟩)) ≠ 0 ∧
    (axisDist (Touch.clientX ⟨5, 5⟩ - Touch.clientX ⟨5, 5⟩)
        (Touch.clientY ⟨5, 5⟩ - Touch.clientY ⟨5, 5⟩) = 0 →
      jsOrOne (axisDist (Touch.clientX ⟨5, 5⟩ - Touch.clientX ⟨5, 5⟩)
        (Touch.clientY ⟨5, 5⟩ - Touch.clientY ⟨5, 5⟩)) = 1) ∧
    (handleTouchMove axisDist [⟨5, 5⟩, ⟨5, 5⟩]
        (handleTouchStart axisDist 2000 [⟨0, 0⟩, ⟨3, 0⟩] baseState)).overlayState.scale =
      max (1/10) (min 8
        (jsOrOne (axisDist (Touch.clientX ⟨5, 5⟩ - Touch.clientX ⟨5, 5⟩)
            (Touch.clientY ⟨5, 5⟩ - Touch.clientY ⟨5, 5⟩)) /
          (handleTouchStart axisDist 2000 [⟨0, 0⟩, ⟨3, 0⟩] baseState).pinchStartDistance *
          (handleTouchStart axisDist 2000 [⟨0, 0⟩, ⟨3, 0⟩] baseState).pinchStartScale)) :=
  pinch_distance_guard axisDist 2000 baseState ⟨0, 0⟩ ⟨3, 0⟩ ⟨5, 5⟩ ⟨5, 5⟩ rfl rfl rfl

theorem stepGesture_filters (hyp : ℚ → ℚ → ℚ) (s : GState) (e : GEvent) :
    (stepGesture hyp s e).filterState = s.filterState ∧
    (stepGesture hyp s e).fxState = s.fxState := by
  rcases e with ⟨now, touches⟩ | touches | touches
  · rcases touches with _ | ⟨t, _ | ⟨t1, _ | ⟨t2, ts⟩⟩⟩ <;>
      · simp only [stepGesture, handleTouchStart, GState.resetOverlay]
        split_ifs <;> exact ⟨rfl, rfl⟩
  · rcases touches with _ | ⟨t, _ | ⟨t1, _ | ⟨t2, ts⟩⟩⟩ <;>
      · simp only [stepGesture, handleTouchMove]
        split_ifs <;> exact ⟨rfl, rfl⟩
  · simp only [stepGesture, handleTouchEnd]
    split_ifs <;> exact ⟨rfl, rfl⟩

theorem stepOp_filters (hyp : ℚ → ℚ → ℚ) (s : GState) (op : OverlayOp) :
    (stepOp hyp s op).filterState = s.filterState ∧
    (stepOp hyp s op).fxState = s.fxState := by
  rcases op with _ | _ | _ | e
  · simp only [stepOp, zoomInClick]
    split_ifs <;> exact ⟨rfl, rfl⟩
  · simp only [stepOp, zoomOutClick]
    split_ifs <;> exact ⟨rfl, rfl⟩
  · exact ⟨rfl, rfl⟩
  · exact stepGesture_filters hyp s e

theorem runOps_filters (hyp : ℚ → ℚ → ℚ) (s : GState) (ops : List OverlayOp) :
    (runOps hyp s ops).filterState = s.filterState ∧
    (runOps hyp s ops).fxState = s.fxState := by
  induction ops generalizing s with
  | nil => exact ⟨rfl, rfl⟩
  | cons op ops ih =>
    have h1 := stepOp_filters hyp s op
    have h2 := ih (stepOp hyp s op)
    simp only [runOps, List.foldl_cons] at h2 ⊢
    exact ⟨h2.1.trans h1.1, h2.2.trans h1.2⟩

/-- Claim C9, amended: the filter settings are unchanged by every
sequence of zoom, reset and gesture operations, by every lock toggle and
by every resize or orientation-change event, but image loading is an
exception: the image-load completion path calls resetFilters, so after
it the filter settings equal their defaults rather than their previous
values. -/
theorem filters_mutation_contract (hyp : ℚ → ℚ → ℚ) (s : GState) (ops : List OverlayOp)
    (newW newH : ℚ) :
    (runOps hyp s ops).filterState = s.filterState ∧
    (runOps hyp s ops).fxState = s.fxState ∧
    (toggleLock s).filterState = s.filterState ∧
    (toggleLock s).fxState = s.fxState ∧
    (handleResize newW newH s).filterState = s.filterState ∧
    (handleResize newW newH s).fxState = s.fxState ∧
    (imageLoadComplete newW newH s).filterState =
      { brightness := 1, contrast := 1, opacity := 7/10 } ∧
    (imageLoadComplete newW newH s).fxState = { grayscale := false, invert := false } := by
  have hresize : (handleResize newW newH s).filterState = s.filterState ∧
      (handleResize newW newH s).fxState = s.fxState := by
    unfold handleResize
    split_ifs <;> exact ⟨rfl, rfl⟩
  exact ⟨(runOps_filters hyp s ops).1, (runOps_filters hyp s ops).2, rfl, rfl,
    hresize.1, hresize.2, rfl, rfl⟩

/-- Counterexample for C9 as frozen: loading an image while the opacity
slider sits at one half resets the opacity to the default, so image
loading does mutate the filter settings. -/
theorem filters_mutation_counterexample :
    ¬ ((imageLoadComplete 400 800 tintedState).filterState = tintedState.filterState) := by
  simp only [imageLoadComplete, resetFilters, tintedState, baseState]
  intro h
  have := congrArg FilterState.opacity h
  norm_num at this

theorem stepGesture_scale_bounds (hyp : ℚ → ℚ → ℚ) (s : GState) (e : GEvent)
    (h1 : 1/10 ≤ s.overlayState.scale) (h8 : s.overlayState.scale ≤ 8) :
    1/10 ≤ (stepGesture hyp s e).overlayState.scale ∧
    (stepGesture hyp s e).overlayState.scale ≤ 8 := by
  rcases e with ⟨now, touches⟩ | touches | touches
  · rcases touches with _ | ⟨t, _ | ⟨t1, _ | ⟨t2, ts⟩⟩⟩ <;>
      · simp only [stepGesture, handleTouchStart, GState.resetOverlay, resetOverlayTransform]
        split_ifs <;> first
          | exact ⟨h1, h8⟩
          | exact ⟨by norm_num, by norm_num⟩
  · rcases touches with _ | ⟨t, _ | ⟨t1, _ | ⟨t2, ts⟩⟩⟩ <;>
      · simp only [stepGesture, handleTouchMove]
        split_ifs <;> first
          | exact ⟨h1, h8⟩
          | exact ⟨le_max_left _ _, max_le (by norm_num) (le_trans (min_le_left _ _) le_rfl)⟩
  · simp only [stepGesture, handleTouchEnd]
    split_ifs <;> exact ⟨h1, h8⟩

theorem stepOp_scale_bounds (hyp : ℚ → ℚ → ℚ) (s : GState) (op : OverlayOp)
    (h1 : 1/10 ≤ s.overlayState.scale) (h8 : s.overlayState.scale ≤ 8) :
    1/10 ≤ (stepOp hyp s op).overlayState.scale ∧
    (stepOp hyp s op).overlayState.scale ≤ 8 := by
  rcases op with _ | _ | _ | e
  · simp only [stepOp, zoomInClick]
    split_ifs
    · exact ⟨h1, h8⟩
    · exact ⟨le_min (by norm_num) (by linarith), min_le_left _ _⟩
  · simp only [stepOp, zoomOutClick]
    split_ifs
    · exact ⟨h1, h8⟩
    · exact ⟨le_max_left _ _, max_le (by norm_num) (by linarith)⟩
  · simp only [stepOp, resetClick, GState.resetOverlay, resetOverlayTransform]
    exact ⟨by norm_num, by norm_num⟩
  · exact stepGesture_scale_bounds hyp s e h1 h8

theorem runOps_scale_bounds (hyp : ℚ → ℚ → ℚ) (s : GState) (ops : List OverlayOp)
    (h1 : 1/10 ≤ s.overlayState.scale) (h8 : s.overlayState.scale ≤ 8) :
    1/10 ≤ (runOps hyp s ops).overlayState.scale ∧
    (runOps hyp s ops).overlayState.scale ≤ 8 := by
  induction ops generalizing s with
  | nil => exact ⟨h1, h8⟩
  | cons op ops ih =>
    have hstep := stepOp_scale_bounds hyp s op h1 h8
    have := ih (stepOp hyp s op) hstep.1 hstep.2
    simpa only [runOps, List.foldl_cons] using this

/-- Claim C3: starting from a state whose scale lies in the interval from
1 over 10 to 8, after every prefix of any sequence of zoom-button, reset
and gesture operations the scale still lies in that interval, so the
clamp invariant holds after every operation returns. -/
theorem scale_clamped_along_ops (hyp : ℚ → ℚ → ℚ) (s : GState) (ops : List OverlayOp) (i : ℕ)
    (h1 : 1/10 ≤ s.overlayState.scale) (h8 : s.overlayState.scale ≤ 8) :
    1/10 ≤ (runOps hyp s (ops.take i)).overlayState.scale ∧
    (runOps hyp s (ops.take i)).overlayState.scale ≤ 8 :=
  runOps_scale_bounds hyp s (ops.take i) h1 h8

/-- Witness for C3: a concrete sequence of a zoom-in, a pinch move and a
zoom-out from the baseline state, after its first two operations. -/
theorem scale_clamped_along_ops_witness :
    1/10 ≤ (runOps axisDist baseState
      ([OverlayOp.zoomIn, OverlayOp.gesture (GEvent.touchMove [⟨0, 0⟩, ⟨40, 0⟩]),
        OverlayOp.zoomOut].take 2)).overlayState.scale ∧
    (runOps axisDist baseState
      ([OverlayOp.zoomIn, OverlayOp.gesture (GEvent.touchMove [⟨0, 0⟩, ⟨40, 0⟩]),
        OverlayOp.zoomOut].take 2)).overlayState.scale ≤ 8 :=
  scale_clamped_along_ops axisDist baseState
    [OverlayOp.zoomIn, OverlayOp.gesture (GEvent.touchMove [⟨0, 0⟩, ⟨40, 0⟩]),
      OverlayOp.zoomOut] 2
    (by norm_num [baseState]) (by norm_num [baseState])

theorem stepGesture_overlay_of_locked (hyp : ℚ → ℚ → ℚ) (s : GState) (e : GEvent)
    (hl : s.overlayState.locked = true)
    (hnf : eventFires s e = false) :
    (stepGesture hyp s e).overlayState = s.overlayState := by
  rcases e with ⟨now, touches⟩ | touches | touches
  · simp only [eventFires, doubleTapFires] at hnf
    rcases touches with _ | ⟨t, _ | ⟨t1, _ | ⟨t2, ts⟩⟩⟩
    · simp only [stepGesture, handleTouchStart]
      split_ifs <;> rfl
    · simp only [stepGesture, handleTouchStart]
      by_cases hov : s.overlayReady = false
      · rw [if_pos hov]
      · have hov' : s.overlayReady = true := by
          revert hov
          cases s.overlayReady <;> simp
        rw [if_neg hov]
        by_cases hui : s.appState.uiHidden = true
        · rw [if_pos hui]
        · have hui' : s.appState.uiHidden = false := by
            revert hui
            cases s.appState.uiHidden <;> simp
          rw [if_neg hui]
          rw [hov', hui'] at hnf
          simp only [Bool.not_false, Bool.true_and] at hnf
          have hnp := of_decide_eq_false hnf
          rw [if_neg hnp]
          split_ifs <;> rfl
    · simp only [stepGesture, handleTouchStart]
      split_ifs <;> rfl
    · simp only [stepGesture, handleTouchStart]
      split_ifs <;> rfl
  · rcases touches with _ | ⟨t, _ | ⟨t1, _ | ⟨t2, ts⟩⟩⟩ <;>
      · simp only [stepGesture, handleTouchMove]
        split_ifs with h
        · rfl
        · exact absurd (Or.inr hl) h
  · simp only [stepGesture, handleTouchEnd]
    split_ifs <;> rfl

/-- Claim C1, amended: for every sequence of gesture events delivered
while locked is true throughout, in which no single-finger touch-start
satisfies the double-tap condition against the tap recorded before it,
the overlay scale and position after the sequence equal their values
before it.  The restriction is forced: the double-tap branch of
handleTouchStart runs before the lock check and resets a locked
transform, which is the counterexample to the frozen claim. -/
theorem locked_gestures_keep_transform (hyp : ℚ → ℚ → ℚ) (s : GState) (es : List GEvent)
    (hl : s.overlayState.locked = true)
    (hnf : traceFiresDoubleTap hyp s es = false) :
    (runGestures hyp s es).overlayState.scale = s.overlayState.scale ∧
    (runGestures hyp s es).overlayState.x = s.overlayState.x ∧
    (runGestures hyp s es).overlayState.y = s.overlayState.y := by
  have key : ∀ es s, s.overlayState.locked = true →
      traceFiresDoubleTap hyp s es = false →
      (runGestures hyp s es).overlayState = s.overlayState := by
    intro es
    induction es with
    | nil =>
      intro s _ _
      rfl
    | cons e es ih =>
      intro s hl hnf
      simp only [traceFiresDoubleTap, Bool.or_eq_false_iff] at hnf
      have h1 := stepGesture_overlay_of_locked hyp s e hl hnf.1
      have h2 := ih (stepGesture hyp s e) (by rw [h1]; exact hl) hnf.2
      simp only [runGestures, List.foldl_cons] at h2 ⊢
      rw [h2, h1]
  have k := key es s hl hnf
  exact ⟨by rw [k], by rw [k], by rw [k]⟩

/-- Witness for C1: a locked state taken through a tap far from the
double-tap window, a move and an end keeps its transform. -/
theorem locked_gestures_keep_transform_witness :
    lockedState.overlayState.locked = true ∧
    traceFiresDoubleTap axisDist lockedState
      [GEvent.touchStart 1000 [⟨5, 5⟩], GEvent.touchMove [⟨50, 50⟩], GEvent.touchEnd []] =
        false ∧
    ((runGestures axisDist lockedState
        [GEvent.touchStart 1000 [⟨5, 5⟩], GEvent.touchMove [⟨50, 50⟩],
          GEvent.touchEnd []]).overlayState.scale = lockedState.overlayState.scale ∧
      (runGestures axisDist lockedState
        [GEvent.touchStart 1000 [⟨5, 5⟩], GEvent.touchMove [⟨50, 50⟩],
          GEvent.touchEnd []]).overlayState.x = lockedState.overlayState.x ∧
      (runGestures axisDist lockedState
        [GEvent.touchStart 1000 [⟨5, 5⟩], GEvent.touchMove [⟨50, 50⟩],
          GEvent.touchEnd []]).overlayState.y = lockedState.overlayState.y) :=
  ⟨rfl,
    by norm_num [traceFiresDoubleTap, eventFires, doubleTapFires, stepGesture,
      handleTouchStart, handleTouchMove, handleTouchEnd, lockedState, baseState,
      GState.resetOverlay, resetOverlayTransform],
    locked_gestures_keep_transform axisDist lockedState
      [GEvent.touchStart 1000 [⟨5, 5⟩], GEvent.touchMove [⟨50, 50⟩], GEvent.touchEnd []]
      rfl
      (by norm_num [traceFiresDoubleTap, eventFires, doubleTapFires, stepGesture,
        handleTouchStart, handleTouchMove, handleTouchEnd, lockedState, baseState,
        GState.resetOverlay, resetOverlayTransform])⟩

/-- Counterexample for C1 as frozen: on a locked overlay away from the
viewport center, two taps at the same point 100 milliseconds apart keep
locked true at every intermediate state yet move the overlay position
from 50 to the viewport center 200, because the double-tap reset runs
before the lock check. -/
theorem locked_gestures_counterexample :
    lockedState.overlayState.locked = true ∧
    (stepGesture axisDist lockedState
      (GEvent.touchStart 1000 [⟨5, 5⟩])).overlayState.locked = true ∧
    (runGestures axisDist lockedState
      [GEvent.touchStart 1000 [⟨5, 5⟩],
        GEvent.touchStart 1100 [⟨5, 5⟩]]).overlayState.locked = true ∧
    ¬ ((runGestures axisDist lockedState
      [GEvent.touchStart 1000 [⟨5, 5⟩],
        GEvent.touchStart 1100 [⟨5, 5⟩]]).overlayState.x = lockedState.overlayState.x) := by
  norm_num [runGestures, stepGesture, handleTouchStart, lockedState, baseState,
    GState.resetOverlay, resetOverlayTransform]

theorem handleTouchStart_single_record (hyp : ℚ → ℚ → ℚ) (now : ℚ) (t : Touch) (s : GState)
    (hr : s.overlayReady = true) (hui : s.appState.uiHidden = false)
    (hnf : doubleTapFires now [t] s = false) :
    (handleTouchStart hyp now [t] s).overlayState = s.overlayState ∧
    (handleTouchStart hyp now [t] s).lastTapTime = now ∧
    (handleTouchStart hyp now [t] s).lastTapX = t.clientX ∧
    (handleTouchStart hyp now [t] s).lastTapY = t.clientY ∧
    (handleTouchStart hyp now [t] s).viewportWidth = s.viewportWidth ∧
    (handleTouchStart hyp now [t] s).viewportHeight = s.viewportHeight ∧
    (handleTouchStart hyp now [t] s).overlayReady = true ∧
    (handleTouchStart hyp now [t] s).appState = s.appState := by
  simp only [doubleTapFires, hr, hui, Bool.not_false, Bool.true_and] at hnf
  have hnp := of_decide_eq_false hnf
  unfold handleTouchStart
  rw [if_neg (by simp [hr]), if_neg (by simp [hui])]
  simp only
  rw [if_neg hnp]
  split_ifs <;> exact ⟨rfl, rfl, rfl, rfl, rfl, rfl, hr, rfl⟩

theorem handleTouchStart_single_fire (hyp : ℚ → ℚ → ℚ) (now : ℚ) (t : Touch) (s : GState)
    (hf : doubleTapFires now [t] s = true) :
    (handleTouchStart hyp now [t] s).overlayState =
      resetOverlayTransform s.viewportWidth s.viewportHeight s.overlayState ∧
    (handleTouchStart hyp now [t] s).lastTapTime = 0 ∧
    (handleTouchStart hyp now [t] s).lastTapX = s.lastTapX ∧
    (handleTouchStart hyp now [t] s).lastTapY = s.lastTapY ∧
    (handleTouchStart hyp now [t] s).viewportWidth = s.viewportWidth ∧
    (handleTouchStart hyp now [t] s).viewportHeight = s.viewportHeight ∧
    (handleTouchStart hyp now [t] s).overlayReady = true ∧
    (handleTouchStart hyp now [t] s).appState = s.appState := by
  simp only [doubleTapFires, Bool.and_eq_true, Bool.not_eq_true', decide_eq_true_eq] at hf
  obtain ⟨⟨hr, hui⟩, hP⟩ := hf
  unfold handleTouchStart
  rw [if_neg (by simp [hr]), if_neg (by simp [hui])]
  simp only
  rw [if_pos hP]
  split_ifs <;> exact ⟨rfl, rfl, rfl, rfl, rfl, rfl, hr, rfl⟩

/-- Claim C4: from a ready state with the UI visible whose recorded last
tap does not capture the first tap, two single-finger touch-starts less
than 300 milliseconds apart and closer than 30 logical pixels reset the
transform to scale 1 at the viewport center and clear the last-tap
timestamp; a third tap occurring at or after 300 milliseconds from the
epoch does not re-trigger the reset, and a second tap 500 milliseconds
after the first triggers no reset at all. -/
theorem doubletap_reset_contract (hyp : ℚ → ℚ → ℚ) (s : GState)
    (t1 t2 t3 : ℚ) (p1 p2 p3 : Touch)
    (hr : s.overlayReady = true) (hui : s.appState.uiHidden = false)
    (h1 : doubleTapFires t1 [p1] s = false)
    (hdt : t2 - t1 < 300)
    (hdist : (p2.clientX - p1.clientX) * (p2.clientX - p1.clientX) +
      (p2.clientY - p1.clientY) * (p2.clientY - p1.clientY) < 30 * 30)
    (ht3 : 300 ≤ t3) :
    (handleTouchStart hyp t2 [p2] (handleTouchStart hyp t1 [p1] s)).overlayState.scale = 1 ∧
    (handleTouchStart hyp t2 [p2] (handleTouchStart hyp t1 [p1] s)).overlayState.x =
      s.viewportWidth / 2 ∧
    (handleTouchStart hyp t2 [p2] (handleTouchStart hyp t1 [p1] s)).overlayState.y =
      s.viewportHeight / 2 ∧
    (handleTouchStart hyp t2 [p2] (handleTouchStart hyp t1 [p1] s)).lastTapTime = 0 ∧
    (handleTouchStart hyp t3 [p3]
        (handleTouchStart hyp t2 [p2] (handleTouchStart hyp t1 [p1] s))).overlayState =
      (handleTouchStart hyp t2 [p2] (handleTouchStart hyp t1 [p1] s)).overlayState ∧
    (handleTouchStart hyp (t1 + 500) [p2] (handleTouchStart hyp t1 [p1] s)).overlayState =
      s.overlayState := by
  obtain ⟨e1o, e1t, e1x, e1y, e1w, e1h, e1r, e1a⟩ :=
    handleTouchStart_single_record hyp t1 p1 s hr hui h1
  have hf2 : doubleTapFires t2 [p2] (handleTouchStart hyp t1 [p1] s) = true := by
    simp only [doubleTapFires, e1r, e1a, hui, e1t, e1x, e1y, Bool.not_false, Bool.true_and]
    rw [decide_eq_true_eq]
    exact ⟨by linarith, hdist⟩
  obtain ⟨f2o, f2t, f2x, f2y, f2w, f2h, f2r, f2a⟩ :=
    handleTouchStart_single_fire hyp t2 p2 (handleTouchStart hyp t1 [p1] s) hf2
  have hui2 : (handleTouchStart hyp t2 [p2]
      (handleTouchStart hyp t1 [p1] s)).appState.uiHidden = false := by
    rw [f2a, e1a]
    exact hui
  have hnf3 : doubleTapFires t3 [p3]
      (handleTouchStart hyp t2 [p2] (handleTouchStart hyp t1 [p1] s)) = false := by
    simp only [doubleTapFires, f2r, f2a, e1a, hui, f2t, Bool.not_false, Bool.true_and]
    rw [decide_eq_false_iff_not]
    intro hP
    have := hP.1
    linarith
  obtain ⟨e3o, _⟩ := handleTouchStart_single_record hyp t3 p3
    (handleTouchStart hyp t2 [p2] (handleTouchStart hyp t1 [p1] s)) f2r hui2 hnf3
  have hnf5 : doubleTapFires (t1 + 500) [p2] (handleTouchStart hyp t1 [p1] s) = false := by
    simp only [doubleTapFires, e1r, e1a, hui, e1t, Bool.not_false, Bool.true_and]
    rw [decide_eq_false_iff_not]
    intro hP
    have := hP.1
    linarith
  have hui1 : (handleTouchStart hyp t1 [p1] s).appState.uiHidden = false := by
    rw [e1a]
    exact hui
  obtain ⟨e5o, _⟩ := handleTouchStart_single_record hyp (t1 + 500) p2
    (handleTouchStart hyp t1 [p1] s) e1r hui1 hnf5
  have hresx : (resetOverlayTransform (handleTouchStart hyp t1 [p1] s).viewportWidth
      (handleTouchStart hyp t1 [p1] s).viewportHeight
      (handleTouchStart hyp t1 [p1] s).overlayState).x =
      (handleTouchStart hyp t1 [p1] s).viewportWidth / 2 := rfl
  have hresy : (resetOverlayTransform (handleTouchStart hyp t1 [p1] s).viewportWidth
      (handleTouchStart hyp t1 [p1] s).viewportHeight
      (handleTouchStart hyp t1 [p1] s).overlayState).y =
      (handleTouchStart hyp t1 [p1] s).viewportHeight / 2 := rfl
  refine ⟨?_, ?_, ?_, f2t, e3o, e5o.trans e1o⟩
  · rw [f2o]
    rfl
  · rw [f2o, hresx, e1w]
  · rw [f2o, hresy, e1h]

/-- Witness for C4: two taps at the same point 100 milliseconds apart on
the baseline state, followed by a third tap. -/
theorem doubletap_reset_contract_witness :
    (handleTouchStart axisDist 1100 [⟨5, 5⟩]
      (handleTouchStart axisDist 1000 [⟨5, 5⟩] baseState)).overlayState.scale = 1 ∧
    (handleTouchStart axisDist 1100 [⟨5, 5⟩]
      (handleTouchStart axisDist 1000 [⟨5, 5⟩] baseState)).overlayState.x =
        baseState.viewportWidth / 2 ∧
    (handleTouchStart axisDist 1100 [⟨5, 5⟩]
      (handleTouchStart axisDist 1000 [⟨5, 5⟩] baseState)).overlayState.y =
        baseState.viewportHeight / 2 ∧
    (handleTouchStart axisDist 1100 [⟨5, 5⟩]
      (handleTouchStart axisDist 1000 [⟨5, 5⟩] baseState)).lastTapTime = 0 ∧
    (handleTouchStart axisDist 1150 [⟨5, 5⟩]
        (handleTouchStart axisDist 1100 [⟨5, 5⟩]
          (handleTouchStart axisDist 1000 [⟨5, 5⟩] baseState))).overlayState =
      (handleTouchStart axisDist 1100 [⟨5, 5⟩]
        (handleTouchStart axisDist 1000 [⟨5, 5⟩] baseState)).overlayState ∧
    (handleTouchStart axisDist (1000 + 500) [⟨5, 5⟩]
        (handleTouchStart axisDist 1000 [⟨5, 5⟩] baseState)).overlayState =
      baseState.overlayState :=
  doubletap_reset_contract axisDist baseState 1000 1100 1150 ⟨5, 5⟩ ⟨5, 5⟩ ⟨5, 5⟩
    rfl rfl
    (by norm_num [doubleTapFires, baseState, decide_eq_false_iff_not])
    (by norm_num) (by norm_num) (by norm_num)

theorem jsRound_4096 : jsRound (4096 : ℚ) = 4096 := by
  unfold jsRound
  rw [show ((4096 : ℚ) + 1/2) = ((4096 : ℤ) : ℚ) + 1/2 by norm_num]
  rw [Int.floor_int_add]
  norm_num [Int.floor_eq_zero_iff, Set.mem_Ico]

theorem jsRound_cancel (L : ℕ) (hL : 0 < L) :
    (jsRound ((L : ℚ) * ((4096 : ℚ) / (L : ℚ)))).toNat = 4096 := by
  have hne : (L : ℚ) ≠ 0 := by
    exact_mod_cast hL.ne'
  have h1 : (L : ℚ) * ((4096 : ℚ) / (L : ℚ)) = 4096 := by
    field_simp
  rw [h1, jsRound_4096]
  rfl

theorem jsRound_shorter_le (a L : ℕ) (hL : 0 < L) (ha : a ≤ L) :
    (jsRound ((a : ℚ) * ((4096 : ℚ) / (L : ℚ)))).toNat ≤ 4096 := by
  have hne : (L : ℚ) ≠ 0 := by
    exact_mod_cast hL.ne'
  have h1 : (a : ℚ) * ((4096 : ℚ) / (L : ℚ)) ≤ 4096 := by
    have haq : (a : ℚ) ≤ (L : ℚ) := by exact_mod_cast ha
    have hnn : (0 : ℚ) ≤ (4096 : ℚ) / (L : ℚ) := by positivity
    calc (a : ℚ) * ((4096 : ℚ) / (L : ℚ)) ≤ (L : ℚ) * ((4096 : ℚ) / (L : ℚ)) :=
          mul_le_mul_of_nonneg_right haq hnn
      _ = 4096 := by field_simp
  have h2 : jsRound ((a : ℚ) * ((4096 : ℚ) / (L : ℚ))) ≤ jsRound (4096 : ℚ) :=
    Int.floor_le_floor (by linarith)
  rw [jsRound_4096] at h2
  exact Int.toNat_le.mpr h2

theorem loadedImageDims_gt (w h : ℕ) (hgt : 4096 < max w h) :
    (loadedImageDims ⟨w, h⟩).naturalWidth =
      (jsRound ((w : ℚ) * ((4096 : ℚ) / ((max w h : ℕ) : ℚ)))).toNat ∧
    (loadedImageDims ⟨w, h⟩).naturalHeight =
      (jsRound ((h : ℚ) * ((4096 : ℚ) / ((max w h : ℕ) : ℚ)))).toNat := by
  unfold loadedImageDims createDownscaledImageIfNeeded
  rw [if_pos hgt]
  simp only
  rw [if_neg (not_le.mpr hgt)]
  exact ⟨rfl, rfl⟩

/-- Claim C6: an image whose longest edge is at most 4096 is exposed
unchanged, while one whose longest edge exceeds 4096 is exposed with its
longest edge exactly 4096 and its shorter edge equal to the rounded
proportional value. -/
theorem downscale_contract (w h : ℕ) :
    (max w h ≤ 4096 → loadedImageDims ⟨w, h⟩ = ⟨w, h⟩ ∧
      createDownscaledImageIfNeeded ⟨w, h⟩ = ⟨w, h⟩) ∧
    (4096 < max w h →
      max (loadedImageDims ⟨w, h⟩).naturalWidth
        (loadedImageDims ⟨w, h⟩).naturalHeight = 4096 ∧
      (h ≤ w → (loadedImageDims ⟨w, h⟩).naturalWidth = 4096 ∧
        (loadedImageDims ⟨w, h⟩).naturalHeight =
          (jsRound ((h : ℚ) * ((4096 : ℚ) / ((w : ℕ) : ℚ)))).toNat) ∧
      (w ≤ h → (loadedImageDims ⟨w, h⟩).naturalHeight = 4096 ∧
        (loadedImageDims ⟨w, h⟩).naturalWidth =
          (jsRound ((w : ℚ) * ((4096 : ℚ) / ((h : ℕ) : ℚ)))).toNat)) := by
  constructor
  · intro hle
    constructor
    · simp [loadedImageDims, not_lt.mpr hle]
    · simp [createDownscaledImageIfNeeded, hle]
  · intro hgt
    obtain ⟨hWc, hHc⟩ := loadedImageDims_gt w h hgt
    refine ⟨?_, ?_, ?_⟩
    · rcases le_total h w with hcase | hcase
      · have hmax : max w h = w := max_eq_left hcase
        have hwgt := hgt
        rw [hmax] at hwgt
        have hW : (loadedImageDims ⟨w, h⟩).naturalWidth = 4096 := by
          rw [hWc, hmax]
          exact jsRound_cancel w (by omega)
        have hH : (loadedImageDims ⟨w, h⟩).naturalHeight ≤ 4096 := by
          rw [hHc, hmax]
          exact jsRound_shorter_le h w (by omega) hcase
        rw [hW]
        exact max_eq_left hH
      · have hmax : max w h = h := max_eq_right hcase
        have hhgt := hgt
        rw [hmax] at hhgt
        have hH : (loadedImageDims ⟨w, h⟩).naturalHeight = 4096 := by
          rw [hHc, hmax]
          exact jsRound_cancel h (by omega)
        have hW : (loadedImageDims ⟨w, h⟩).naturalWidth ≤ 4096 := by
          rw [hWc, hmax]
          exact jsRound_shorter_le w h (by omega) hcase
        rw [hH]
        exact max_eq_right hW
    · intro hcase
      have hmax : max w h = w := max_eq_left hcase
      have hwgt := hgt
      rw [hmax] at hwgt
      refine ⟨?_, ?_⟩
      · rw [hWc, hmax]
        exact jsRound_cancel w (by omega)
      · rw [hHc, hmax]
    · intro hcase
      have hmax : max w h = h := max_eq_right hcase
      have hhgt := hgt
      rw [hmax] at hhgt
      refine ⟨?_, ?_⟩
      · rw [hHc, hmax]
        exact jsRound_cancel h (by omega)
      · rw [hWc, hmax]

/-- Witness for C6 at a 2000 by 1000 image, exposed unchanged, and an
8000 by 6000 image, exposed at 4096 by the rounded proportional edge. -/
theorem downscale_contract_witness :
    (loadedImageDims ⟨2000, 1000⟩ = ⟨2000, 1000⟩ ∧
      createDownscaledImageIfNeeded ⟨2000, 1000⟩ = ⟨2000, 1000⟩) ∧
    max (loadedImageDims ⟨8000, 6000⟩).naturalWidth
      (loadedImageDims ⟨8000, 6000⟩).naturalHeight = 4096 ∧
    (loadedImageDims ⟨8000, 6000⟩).naturalWidth = 4096 ∧
    (loadedImageDims ⟨8000, 6000⟩).naturalHeight =
      (jsRound (((6000 : ℕ) : ℚ) * ((4096 : ℚ) / (((8000 : ℕ) : ℕ) : ℚ)))).toNat :=
  ⟨(downscale_contract 2000 1000).1 (by norm_num),
    ((downscale_contract 8000 6000).2 (by norm_num)).1,
    ((downscale_contract 8000 6000).2 (by norm_num)).2.1 (by norm_num)⟩
